import Mathlib

/-!
Verification of the hdkit Human Design chart engine
(src/lib/hdkit-calculator.js) against its natural-language specification.

JavaScript numbers are embedded as exact rationals (ℚ); the JS remainder
operator `%` (truncated division remainder, sign of the dividend) is
embedded as `jsMod`; `Math.floor` is `Int.floor`.
-/

/-- JS `Math.trunc`-style rounding toward zero, as used by the `%` operator. -/
def jsTrunc (q : ℚ) : ℤ := if q < 0 then ⌈q⌉ else ⌊q⌋

/-- The JS remainder operator `x % y`: `x - y * trunc (x / y)`.
The result carries the sign of the dividend `x`. -/
def jsMod (x y : ℚ) : ℚ := x - y * (jsTrunc (x / y) : ℚ)

/-- `gateOrder` from hdkit-calculator.js line 8: the fixed 64-entry
permutation from longitude-segment index to gate number. -/
def gateOrder : List ℕ :=
  [41, 19, 13, 49, 30, 55, 37, 63, 22, 36, 25, 17, 21, 51, 42, 3, 27, 24, 2,
   23, 8, 20, 16, 35, 45, 12, 15, 52, 39, 53, 62, 56, 31, 33, 7, 4, 29, 59,
   40, 64, 47, 6, 46, 18, 48, 57, 32, 50, 28, 44, 1, 43, 14, 34, 9, 5, 26,
   11, 10, 58, 38, 54, 61, 60]

/-- `this.HD_OFFSET_DEGREES = 58` (constructor). -/
def HD_OFFSET_DEGREES : ℚ := 58

/-- `eclipticToGate` (lines 539-551): normalize a negative longitude by
+360, reduce mod 360, add the 58° offset mod 360, divide the circle into
64 segments of 5.625° and look the segment index up in `gateOrder`.
JS `gateIndex % 64` on integers is the truncated remainder `Int.tmod`. -/
def eclipticToGate (eclipticLongitude : ℚ) : ℕ :=
  let normalized0 : ℚ :=
    if eclipticLongitude < 0 then eclipticLongitude + 360 else eclipticLongitude
  let normalizedLongitude := jsMod normalized0 360
  let adjustedLongitude := jsMod (normalizedLongitude + HD_OFFSET_DEGREES) 360
  let gateIndex : ℤ := ⌊adjustedLongitude / 5.625⌋
  gateOrder.getD (Int.tmod gateIndex 64).toNat 0

/-- `calculateLine` (lines 553-559): no negative normalization, only the
58° offset; 384 = 64 gates × 6 lines. -/
def calculateLine (eclipticLongitude : ℚ) : ℤ :=
  let adjustedLongitude := jsMod (eclipticLongitude + HD_OFFSET_DEGREES) 360
  let percentageThrough := adjustedLongitude / 360
  let exactLine := 384 * percentageThrough
  ⌊jsMod exactLine 6 + 1⌋

/-- `calculateColor` (lines 561-567): 2304 = 384 × 6 colors. -/
def calculateColor (eclipticLongitude : ℚ) : ℤ :=
  let adjustedLongitude := jsMod (eclipticLongitude + HD_OFFSET_DEGREES) 360
  let percentageThrough := adjustedLongitude / 360
  let exactColor := 2304 * percentageThrough
  ⌊jsMod exactColor 6 + 1⌋

/-- `calculateTone` (lines 569-575): 13824 = 2304 × 6 tones. -/
def calculateTone (eclipticLongitude : ℚ) : ℤ :=
  let adjustedLongitude := jsMod (eclipticLongitude + HD_OFFSET_DEGREES) 360
  let percentageThrough := adjustedLongitude / 360
  let exactTone := 13824 * percentageThrough
  ⌊jsMod exactTone 6 + 1⌋

/-- `calculateBase` (lines 577-583): 69120 = 13824 × 5 bases. -/
def calculateBase (eclipticLongitude : ℚ) : ℤ :=
  let adjustedLongitude := jsMod (eclipticLongitude + HD_OFFSET_DEGREES) 360
  let percentageThrough := adjustedLongitude / 360
  let exactBase := 69120 * percentageThrough
  ⌊jsMod exactBase 5 + 1⌋

/-- The field names of the `centers` object (lines 22-32). -/
structure CenterNames where
  ROOT : String
  SACRAL : String
  SOLAR_PLEXUS : String
  SPLENIC : String
  HEART : String
  G : String
  THROAT : String
  AJNA : String
  HEAD : String

/-- The `centers` mapping (lines 22-32). -/
def centers : CenterNames :=
  { ROOT := "Root center"
    SACRAL := "Sacral center"
    SOLAR_PLEXUS := "Solar Plexus center"
    SPLENIC := "Splenic center"
    HEART := "Heart center"
    G := "G center"
    THROAT := "Throat center"
    AJNA := "Ajna center"
    HEAD := "Head center" }

/-- `Object.values(centers)` in JS insertion order, as used by
`calculateOpenCenters` (line 669). -/
def centersValues : List String :=
  [centers.ROOT, centers.SACRAL, centers.SOLAR_PLEXUS, centers.SPLENIC,
   centers.HEART, centers.G, centers.THROAT, centers.AJNA, centers.HEAD]

/-- `channelDefinitions` (lines 35-72): the fixed channel catalog, in JS
object insertion order, as (gate-pair key, display name) pairs. -/
def channelDefinitions : List (String × String) :=
  [("1-8", "Channel of Inspiration"),
   ("2-14", "Channel of The Beat"),
   ("3-60", "Channel of Mutation"),
   ("4-63", "Channel of Logic"),
   ("5-15", "Channel of Rhythm"),
   ("6-59", "Channel of Mating"),
   ("7-31", "Channel of The Alpha"),
   ("9-52", "Channel of Concentration"),
   ("10-20", "Channel of Awakening"),
   ("10-34", "Channel of Exploration"),
   ("10-57", "Channel of Perfected Form"),
   ("11-56", "Channel of Curiosity"),
   ("12-22", "Channel of Openness"),
   ("13-33", "Channel of The Prodigal"),
   ("16-48", "Channel of Wavelength"),
   ("17-62", "Channel of Acceptance"),
   ("18-58", "Channel of Judgment"),
   ("19-49", "Channel of Synthesis"),
   ("20-34", "Channel of Charisma"),
   ("20-57", "Channel of The Brainwave"),
   ("21-45", "Channel of Money"),
   ("23-43", "Channel of Structuring"),
   ("24-61", "Channel of Awareness"),
   ("25-51", "Channel of Initiation"),
   ("26-44", "Channel of Surrender"),
   ("27-50", "Channel of Preservation"),
   ("28-38", "Channel of Struggle"),
   ("29-46", "Channel of Discovery"),
   ("30-41", "Channel of Recognition"),
   ("32-54", "Channel of Transformation"),
   ("34-57", "Channel of Power"),
   ("35-36", "Channel of Transitoriness"),
   ("37-40", "Channel of Community"),
   ("39-55", "Channel of Emoting"),
   ("42-53", "Channel of Maturation"),
   ("47-64", "Channel of Abstraction")]

/-- `channelKey.split('-').map(Number)` destructured to `[gate1, gate2]`
(line 604). A non-numeric or malformed key yields 0 components. -/
def splitKey (key : String) : ℕ × ℕ :=
  match (key.splitOn "-").map (fun s => s.toNat?.getD 0) with
  | [a, b] => (a, b)
  | _ => (0, 0)

/-- `calculateChannels` (lines 599-611): a catalog channel is formed iff
both its gate numbers are in the gate set; keys are emitted in catalog
order. -/
def calculateChannels (gates : List ℕ) : List String :=
  (channelDefinitions.filter (fun kv =>
    let p := splitKey kv.1
    gates.contains p.1 && gates.contains p.2)).map Prod.fst

/-- The `channelToCenters` map (lines 617-654) inside
`calculateDefinedCenters`: gate-pair key to the pair of (short) center
names the channel connects. -/
def channelToCenters : List (String × String × String) :=
  [("1-8", "G", "Throat"),
   ("2-14", "G", "Sacral"),
   ("3-60", "Root", "Sacral"),
   ("4-63", "Ajna", "Head"),
   ("5-15", "G", "Sacral"),
   ("6-59", "Solar Plexus", "Sacral"),
   ("7-31", "G", "Throat"),
   ("9-52", "Root", "Sacral"),
   ("10-20", "G", "Throat"),
   ("10-34", "G", "Sacral"),
   ("10-57", "G", "Splenic"),
   ("11-56", "Ajna", "Throat"),
   ("12-22", "Throat", "Solar Plexus"),
   ("13-33", "G", "Throat"),
   ("16-48", "Throat", "Splenic"),
   ("17-62", "Ajna", "Throat"),
   ("18-58", "Root", "Splenic"),
   ("19-49", "Root", "Solar Plexus"),
   ("20-34", "Throat", "Sacral"),
   ("20-57", "Throat", "Splenic"),
   ("21-45", "Heart", "Throat"),
   ("23-43", "Ajna", "Throat"),
   ("24-61", "Ajna", "Head"),
   ("25-51", "G", "Heart"),
   ("26-44", "Heart", "Splenic"),
   ("27-50", "Sacral", "Splenic"),
   ("28-38", "Root", "Splenic"),
   ("29-46", "Sacral", "G"),
   ("30-41", "Solar Plexus", "Heart"),
   ("32-54", "Root", "Splenic"),
   ("34-57", "Sacral", "Splenic"),
   ("35-36", "Throat", "Solar Plexus"),
   ("37-40", "Solar Plexus", "Heart"),
   ("39-55", "Root", "Solar Plexus"),
   ("42-53", "Root", "Sacral"),
   ("47-64", "Ajna", "Head")]

/-- `motorToThroatChannels` (lines 706-713), with the source's inline
comments reproduced: 12-22, 35-36 (Solar Plexus to Throat); 21-45, 26-44
(Heart to Throat); 20-34, 20-57, 10-20, 10-34, 10-57 (Sacral to Throat);
58-18 (Root to Throat); 37-40 (Solar Plexus to Throat). -/
def motorToThroatChannels : List String :=
  ["12-22", "35-36", "21-45", "26-44", "20-34", "20-57", "10-20", "10-34",
   "10-57", "58-18", "37-40"]

/-- `hasMotorToThroat` (lines 705-716). -/
def hasMotorToThroat (channels : List String) : Bool :=
  channels.any (fun channel => motorToThroatChannels.contains channel)

/-- `determineType` (lines 673-703). -/
def determineType (definedCenters channels : List String) : String :=
  let hasSacral := definedCenters.contains centers.SACRAL
  let hasMTT := hasMotorToThroat channels
  if definedCenters.length = 0 then "Reflector"
  else if hasSacral && !hasMTT then "Generator"
  else if hasSacral && hasMTT then "Manifesting Generator"
  else if !hasSacral && hasMTT then "Manifestor"
  else if !hasSacral && !hasMTT then "Projector"
  else "Projector"

/-- `determineAuthority` (lines 718-753), including the code after the
`return 'Outer'` statement, which is unreachable whenever it is reached
with `hasInnerAuthority = true` impossible. -/
def determineAuthority (definedCenters : List String) : String :=
  if definedCenters.contains centers.SOLAR_PLEXUS then "Emotional - Solar Plexus"
  else if definedCenters.contains centers.SACRAL then "Sacral"
  else if definedCenters.contains centers.SPLENIC then "Splenic"
  else if definedCenters.contains centers.HEART then "Heart"
  else if definedCenters.contains centers.G then "Self-Projected"
  else
    let innerAuthorityCenters :=
      [centers.SOLAR_PLEXUS, centers.SACRAL, centers.SPLENIC, centers.HEART,
       centers.G]
    let hasInnerAuthority :=
      innerAuthorityCenters.any (fun center => definedCenters.contains center)
    if !hasInnerAuthority then "Outer"
    else if definedCenters.contains centers.THROAT then "Throat"
    else if definedCenters.contains centers.AJNA then "Mental"
    else "Lunar"

/-- `calculateDefinition` (lines 807-823). -/
def calculateDefinition (definedCenters channels : List String) : String :=
  if definedCenters.length = 0 then "No Definition"
  else if definedCenters.length = 1 then "Single Definition"
  else if channels.length = 1 && definedCenters.length = 2 then "Single Definition"
  else if definedCenters.length ≤ 3 then "Single Definition"
  else if definedCenters.length ≤ 5 then "Split Definition"
  else if definedCenters.length ≤ 7 then "Triple Split Definition"
  else "Quadruple Split Definition"

/-- `calculateOpenCenters` (lines 668-671). -/
def calculateOpenCenters (definedCenters : List String) : List String :=
  centersValues.filter (fun center => !definedCenters.contains center)

/-- The de-duplication performed by `[...new Set(list)]`: keep the first
occurrence of each element. -/
def jsDedup : List String → List String
  | [] => []
  | a :: l => a :: jsDedup (l.filter (fun b => b ≠ a))
termination_by l => l.length
decreasing_by
  simpa using Nat.lt_succ_of_le (List.length_filter_le _ _)

/-- The chart fields consumed by `calculateComposite` and
`categorizeRelationshipChannels`. -/
structure Chart where
  definedCenters : List String
  channels : List String

/-- `categorizeRelationshipChannels` (lines 963-1008), restricted to the
channel keys placed in each bucket; the JS code maps each key one-to-one
to a display object. Result: (Companionship, Dominance, Compromise). -/
def categorizeRelationshipChannels (channels1 channels2 : List String) :
    List String × List String × List String :=
  let shared := channels1.filter (fun c => channels2.contains c)
  let unique1 := channels1.filter (fun c => !channels2.contains c)
  let unique2 := channels2.filter (fun c => !channels1.contains c)
  (shared, unique1.take 3, unique2.take 3)

/-- The composite fields computed by `calculateComposite` (lines 901-930). -/
structure Composite where
  definedCenters : List String
  openCenters : List String
  companionship : List String
  dominance : List String
  compromise : List String

/-- `calculateComposite` (lines 901-930): defined centers are the
de-duplicated concatenation of both charts' defined centers; open centers
derive from them via `calculateOpenCenters`. -/
def calculateComposite (chart1 chart2 : Chart) : Composite :=
  let allDefinedCenters := jsDedup (chart1.definedCenters ++ chart2.definedCenters)
  let buckets := categorizeRelationshipChannels chart1.channels chart2.channels
  { definedCenters := allDefinedCenters
    openCenters := calculateOpenCenters allDefinedCenters
    companionship := buckets.1
    dominance := buckets.2.1
    compromise := buckets.2.2 }

/-- The circular angular difference computed at lines 324-325:
`|target - lon|`, folded by `360 - d` when above 180. -/
def circDiff (targetLongitude lon : ℚ) : ℚ :=
  let difference := |targetLongitude - lon|
  if difference > 180 then 360 - difference else difference

/-- Lines 307-308: `targetLongitude = sunLongitude - 88`, normalized by
+360 when negative. -/
def designTarget (sunLongitude : ℚ) : ℚ :=
  let t := sunLongitude - 88
  if t < 0 then t + 360 else t

/-- Whether sample `j` is an immediate-return match: the provider call
succeeds and the circular difference is below 0.05° (line 334). -/
def isHit (targetLongitude : ℚ) (provider : ℕ → Option ℚ) (j : ℕ) : Bool :=
  match provider j with
  | some lon => decide (circDiff targetLongitude lon < 0.05)
  | none => false

/-- The scan loop of `findDesignDate` (lines 318-343) over the remaining
sample indices, carrying (bestMatch, bestDifference). `Sum.inl` is the
early `return currentJulianDay`; `Sum.inr` is loop completion. A failed
provider call is the `catch/continue`. -/
def fdLoop (searchJulianDay targetLongitude : ℚ) (provider : ℕ → Option ℚ) :
    List ℕ → Option ℚ × ℚ → Sum ℚ (Option ℚ × ℚ)
  | [], s => Sum.inr s
  | i :: rest, (bestMatch, bestDifference) =>
    match provider i with
    | none => fdLoop searchJulianDay targetLongitude provider rest
        (bestMatch, bestDifference)
    | some lon =>
      let currentJulianDay := searchJulianDay + i * 0.05
      let difference := circDiff targetLongitude lon
      let s :=
        if difference < bestDifference then (some currentJulianDay, difference)
        else (bestMatch, bestDifference)
      if difference < 0.05 then Sum.inl currentJulianDay
      else fdLoop searchJulianDay targetLongitude provider rest s

/-- `findDesignDate` (lines 303-352). The solar-longitude provider is
abstracted as a function of the sample index (sample instants are
strictly increasing, so the index determines the queried instant);
`none` models a rejected `getPlanetPosition` promise. After the loop,
`if (bestMatch)` is JS truthiness: a numeric 0 is falsy. -/
def findDesignDate (personalityJulianDay sunLongitude : ℚ)
    (provider : ℕ → Option ℚ) : ℚ :=
  let targetLongitude := designTarget sunLongitude
  let searchJulianDay := personalityJulianDay - 95
  match fdLoop searchJulianDay targetLongitude provider (List.range 400)
      (none, 999) with
  | Sum.inl currentJulianDay => currentJulianDay
  | Sum.inr (bestMatch, _) =>
    match bestMatch with
    | some v => if v = 0 then personalityJulianDay - 88.5 else v
    | none => personalityJulianDay - 88.5

/-! ### Arithmetic facts about `jsMod` -/

theorem jsTrunc_of_nonneg {q : ℚ} (h : 0 ≤ q) : jsTrunc q = ⌊q⌋ := by
  unfold jsTrunc
  rw [if_neg (not_lt.mpr h)]

theorem jsMod_nonneg (x y : ℚ) (hx : 0 ≤ x) (hy : 0 < y) : 0 ≤ jsMod x y := by
  unfold jsMod
  rw [jsTrunc_of_nonneg (div_nonneg hx hy.le)]
  have h1 : ((⌊x / y⌋ : ℚ)) ≤ x / y := Int.floor_le _
  have h2 : y * (x / y) = x := mul_div_cancel₀ x hy.ne'
  nlinarith

theorem jsMod_lt (x y : ℚ) (hx : 0 ≤ x) (hy : 0 < y) : jsMod x y < y := by
  unfold jsMod
  rw [jsTrunc_of_nonneg (div_nonneg hx hy.le)]
  have h1 : x / y < (⌊x / y⌋ : ℚ) + 1 := Int.lt_floor_add_one _
  have h2 : y * (x / y) = x := mul_div_cancel₀ x hy.ne'
  nlinarith

theorem jsMod_eq_self {x y : ℚ} (hx : 0 ≤ x) (hxy : x < y) : jsMod x y = x := by
  have hy : 0 < y := lt_of_le_of_lt hx hxy
  unfold jsMod
  rw [jsTrunc_of_nonneg (div_nonneg hx hy.le)]
  have hfl : ⌊x / y⌋ = 0 := by
    rw [Int.floor_eq_zero_iff]
    constructor
    · exact div_nonneg hx hy.le
    · exact (div_lt_one hy).mpr hxy
  rw [hfl]
  push_cast
  ring

theorem jsMod_eq_sub {x y : ℚ} (hy : 0 < y) (h1 : y ≤ x) (h2 : x < 2 * y) :
    jsMod x y = x - y := by
  have hx : 0 ≤ x := le_trans hy.le h1
  unfold jsMod
  rw [jsTrunc_of_nonneg (div_nonneg hx hy.le)]
  have hfl : ⌊x / y⌋ = 1 := by
    rw [Int.floor_eq_iff]
    constructor
    · push_cast
      exact (one_le_div hy).mpr h1
    · push_cast
      rw [div_lt_iff₀ hy]
      linarith
  rw [hfl]
  push_cast
  ring

theorem floor_succ_bounds {r : ℚ} {m : ℤ} (h0 : 0 ≤ r) (h1 : r < m) :
    1 ≤ ⌊r + 1⌋ ∧ ⌊r + 1⌋ ≤ m := by
  constructor
  · exact Int.le_floor.mpr (by push_cast; linarith)
  · have h : ⌊r + 1⌋ < m + 1 := Int.floor_lt.mpr (by push_cast; linarith)
    omega

theorem gateOrder_bounds : ∀ g ∈ gateOrder, 1 ≤ g ∧ g ≤ 64 := by decide

theorem adjusted_bounds {L : ℚ} (h0 : 0 ≤ L) :
    0 ≤ jsMod (L + HD_OFFSET_DEGREES) 360 ∧
    jsMod (L + HD_OFFSET_DEGREES) 360 < 360 := by
  have hoff0 : (0:ℚ) ≤ L + HD_OFFSET_DEGREES := by
    unfold HD_OFFSET_DEGREES
    linarith
  have h360 : (0:ℚ) < 360 := by norm_num
  exact ⟨jsMod_nonneg _ _ hoff0 h360, jsMod_lt _ _ hoff0 h360⟩

theorem eclipticToGate_mem {L : ℚ} (h0 : 0 ≤ L) (h1 : L < 360) :
    eclipticToGate L ∈ gateOrder := by
  obtain ⟨hadj0, hadj1⟩ := adjusted_bounds (L := L) h0
  have hq0 : (0:ℚ) ≤ jsMod (L + HD_OFFSET_DEGREES) 360 / 5.625 := by positivity
  have hq1 : jsMod (L + HD_OFFSET_DEGREES) 360 / 5.625 < 64 := by
    rw [div_lt_iff₀ (by norm_num : (0:ℚ) < 5.625)]
    nlinarith
  have hgi0 : 0 ≤ ⌊jsMod (L + HD_OFFSET_DEGREES) 360 / 5.625⌋ :=
    Int.floor_nonneg.mpr hq0
  have hgi1 : ⌊jsMod (L + HD_OFFSET_DEGREES) 360 / 5.625⌋ < 64 :=
    Int.floor_lt.mpr (by exact_mod_cast hq1)
  have hgate : eclipticToGate L =
      gateOrder.getD
        (Int.tmod ⌊jsMod (jsMod L 360 + HD_OFFSET_DEGREES) 360 / 5.625⌋ 64).toNat
        0 := by
    unfold eclipticToGate
    rw [if_neg (not_lt.mpr h0)]
  rw [hgate, jsMod_eq_self h0 h1,
    Int.tmod_eq_emod hgi0 (by norm_num), Int.emod_eq_of_lt hgi0 hgi1]
  have hlen : (⌊jsMod (L + HD_OFFSET_DEGREES) 360 / 5.625⌋).toNat <
      gateOrder.length := by
    have h64 : gateOrder.length = 64 := by decide
    omega
  rw [List.getD_eq_getElem _ _ hlen]
  exact List.getElem_mem _

theorem stage_bound {L : ℚ} (h0 : 0 ≤ L) (N : ℚ) (hN : 0 < N) {m : ℤ}
    (hm : (0:ℚ) < m) :
    1 ≤ ⌊jsMod (N * (jsMod (L + HD_OFFSET_DEGREES) 360 / 360)) (m:ℚ) + 1⌋ ∧
    ⌊jsMod (N * (jsMod (L + HD_OFFSET_DEGREES) 360 / 360)) (m:ℚ) + 1⌋ ≤ m := by
  obtain ⟨hadj0, _⟩ := adjusted_bounds (L := L) h0
  have hr0 : 0 ≤ N * (jsMod (L + HD_OFFSET_DEGREES) 360 / 360) := by positivity
  exact floor_succ_bounds (jsMod_nonneg _ _ hr0 hm) (jsMod_lt _ _ hr0 hm)

/-- C1: for every longitude in [0,360) the Coordinate Encoder is total
and in range: the Gate is an element of the 64-entry `gateOrder`
permutation (hence in [1,64]), Line, Color and Tone are in [1,6], and
Base is in [1,5]. -/
theorem encoder_ranges_C1 (L : ℚ) (h0 : 0 ≤ L) (h1 : L < 360) :
    eclipticToGate L ∈ gateOrder ∧
    1 ≤ eclipticToGate L ∧ eclipticToGate L ≤ 64 ∧
    1 ≤ calculateLine L ∧ calculateLine L ≤ 6 ∧
    1 ≤ calculateColor L ∧ calculateColor L ≤ 6 ∧
    1 ≤ calculateTone L ∧ calculateTone L ≤ 6 ∧
    1 ≤ calculateBase L ∧ calculateBase L ≤ 5 := by
  have hmem := eclipticToGate_mem h0 h1
  obtain ⟨hg1, hg2⟩ := gateOrder_bounds _ hmem
  have hline := stage_bound h0 384 (by norm_num) (m := 6) (by norm_num)
  have hcolor := stage_bound h0 2304 (by norm_num) (m := 6) (by norm_num)
  have htone := stage_bound h0 13824 (by norm_num) (m := 6) (by norm_num)
  have hbase := stage_bound h0 69120 (by norm_num) (m := 5) (by norm_num)
  have hl : calculateLine L =
      ⌊jsMod (384 * (jsMod (L + HD_OFFSET_DEGREES) 360 / 360)) ((6:ℤ):ℚ) + 1⌋ := by
    norm_num [calculateLine]
  have hc : calculateColor L =
      ⌊jsMod (2304 * (jsMod (L + HD_OFFSET_DEGREES) 360 / 360)) ((6:ℤ):ℚ) + 1⌋ := by
    norm_num [calculateColor]
  have ht : calculateTone L =
      ⌊jsMod (13824 * (jsMod (L + HD_OFFSET_DEGREES) 360 / 360)) ((6:ℤ):ℚ) + 1⌋ := by
    norm_num [calculateTone]
  have hb : calculateBase L =
      ⌊jsMod (69120 * (jsMod (L + HD_OFFSET_DEGREES) 360 / 360)) ((5:ℤ):ℚ) + 1⌋ := by
    norm_num [calculateBase]
  rw [hl, hc, ht, hb]
  exact ⟨hmem, hg1, hg2, hline.1, hline.2, hcolor.1, hcolor.2,
    htone.1, htone.2, hbase.1, hbase.2⟩

/-- Witness for C1 at longitude 0. -/
theorem encoder_ranges_C1_witness :
    (0:ℚ) ≤ 0 ∧ (0:ℚ) < 360 ∧
    (eclipticToGate 0 ∈ gateOrder ∧
     1 ≤ eclipticToGate 0 ∧ eclipticToGate 0 ≤ 64 ∧
     1 ≤ calculateLine 0 ∧ calculateLine 0 ≤ 6 ∧
     1 ≤ calculateColor 0 ∧ calculateColor 0 ≤ 6 ∧
     1 ≤ calculateTone 0 ∧ calculateTone 0 ≤ 6 ∧
     1 ≤ calculateBase 0 ∧ calculateBase 0 ≤ 5) :=
  ⟨le_refl 0, by norm_num, encoder_ranges_C1 0 (le_refl 0) (by norm_num)⟩

/-- C2 counterexample: with only the Throat center defined, the code
returns "Outer", not "Throat" as the claim states — the Throat, Mental
and Lunar branches of `determineAuthority` are unreachable. -/
theorem determineAuthority_throat_counterexample_C2 :
    determineAuthority ["Throat center"] = "Outer" ∧
    determineAuthority ["Throat center"] ≠ "Throat" := by
  constructor
  · decide
  · decide

/-- C2 amended: the five inner-authority checks run in strict priority
order (Solar Plexus, then Sacral, Splenic, Heart, G), but when none of
the five inner-authority centers is defined the classifier returns
"Outer"; it never reaches the Throat, Mental or Lunar branches. -/
theorem determineAuthority_priority_C2 (dc : List String) :
    (centers.SOLAR_PLEXUS ∈ dc →
      determineAuthority dc = "Emotional - Solar Plexus") ∧
    (centers.SOLAR_PLEXUS ∉ dc → centers.SACRAL ∈ dc →
      determineAuthority dc = "Sacral") ∧
    (centers.SOLAR_PLEXUS ∉ dc → centers.SACRAL ∉ dc → centers.SPLENIC ∈ dc →
      determineAuthority dc = "Splenic") ∧
    (centers.SOLAR_PLEXUS ∉ dc → centers.SACRAL ∉ dc → centers.SPLENIC ∉ dc →
      centers.HEART ∈ dc → determineAuthority dc = "Heart") ∧
    (centers.SOLAR_PLEXUS ∉ dc → centers.SACRAL ∉ dc → centers.SPLENIC ∉ dc →
      centers.HEART ∉ dc → centers.G ∈ dc →
      determineAuthority dc = "Self-Projected") ∧
    (centers.SOLAR_PLEXUS ∉ dc → centers.SACRAL ∉ dc → centers.SPLENIC ∉ dc →
      centers.HEART ∉ dc → centers.G ∉ dc →
      determineAuthority dc = "Outer") := by
  unfold determineAuthority
  refine ⟨?_, ?_, ?_, ?_, ?_, ?_⟩
  · intro h
    simp [h]
  · intro h1 h2
    simp [h1, h2]
  · intro h1 h2 h3
    simp [h1, h2, h3]
  · intro h1 h2 h3 h4
    simp [h1, h2, h3, h4]
  · intro h1 h2 h3 h4 h5
    simp [h1, h2, h3, h4, h5]
  · intro h1 h2 h3 h4 h5
    simp [h1, h2, h3, h4, h5]

/-- Witness for C2 at two concrete defined-center lists. -/
theorem determineAuthority_priority_C2_witness :
    determineAuthority ["Solar Plexus center"] = "Emotional - Solar Plexus" ∧
    determineAuthority ["Head center"] = "Outer" :=
  ⟨(determineAuthority_priority_C2 ["Solar Plexus center"]).1 (by decide),
   (determineAuthority_priority_C2 ["Head center"]).2.2.2.2.2
     (by decide) (by decide) (by decide) (by decide) (by decide)⟩

/-- C3: the motor-to-throat list contradicts the code's own tables and
comments. "10-57" is commented "Sacral to Throat" but the
channel-to-center map assigns it (G, Splenic): neither endpoint is the
Throat and neither is a motor center. "58-18" (commented "Root to
Throat") is not a key of the channel catalog at all — the catalog key is
"18-58", mapped to (Root, Splenic) — so that entry can never match a
formed channel. -/
theorem motorToThroat_contradiction_C3 :
    "10-57" ∈ motorToThroatChannels ∧
    channelToCenters.lookup "10-57" = some ("G", "Splenic") ∧
    ("G" : String) ≠ "Throat" ∧ ("Splenic" : String) ≠ "Throat" ∧
    ("G" : String) ∉ ["Sacral", "Solar Plexus", "Heart", "Root"] ∧
    ("Splenic" : String) ∉ ["Sacral", "Solar Plexus", "Heart", "Root"] ∧
    "58-18" ∈ motorToThroatChannels ∧
    "58-18" ∉ channelDefinitions.map Prod.fst ∧
    channelToCenters.lookup "58-18" = none ∧
    channelToCenters.lookup "18-58" = some ("Root", "Splenic") := by
  refine ⟨?_, ?_, ?_, ?_, ?_, ?_, ?_, ?_, ?_, ?_⟩ <;> decide

/-- C5: the Type classifier returns "Reflector" exactly when the
defined-center list is empty; every other branch of `determineType`
returns a different string. -/
theorem reflector_iff_empty_C5 (dc ch : List String) :
    determineType dc ch = "Reflector" ↔ dc = [] := by
  cases dc with
  | nil => simp [determineType]
  | cons a l =>
    simp only [determineType, List.length_cons]
    have hne : l.length + 1 ≠ 0 := Nat.succ_ne_zero _
    rw [if_neg hne]
    split_ifs <;> simp

/-- C6 counterexample: the fixed channel catalog has 36 gate pairs, not
34 as the claim states. -/
theorem catalog_size_counterexample_C6 :
    channelDefinitions.length = 36 ∧ channelDefinitions.length ≠ 34 := by
  constructor
  · decide
  · decide

/-- C6 amended: every channel reported by `calculateChannels` is a key
of the fixed channel catalog, every catalog key parses to a pair of
distinct gates in [1,64], and the catalog contains exactly 36 gate
pairs. -/
theorem channels_subset_catalog_C6 (gates : List ℕ) :
    (∀ c ∈ calculateChannels gates, c ∈ channelDefinitions.map Prod.fst) ∧
    (∀ kv ∈ channelDefinitions,
      1 ≤ (splitKey kv.1).1 ∧ (splitKey kv.1).1 ≤ 64 ∧
      1 ≤ (splitKey kv.1).2 ∧ (splitKey kv.1).2 ≤ 64 ∧
      (splitKey kv.1).1 < (splitKey kv.1).2) ∧
    channelDefinitions.length = 36 := by
  refine ⟨?_, ?_, ?_⟩
  · intro c hc
    unfold calculateChannels at hc
    rw [List.mem_map] at hc ⊢
    obtain ⟨kv, hkv, h⟩ := hc
    exact ⟨kv, (List.mem_filter.mp hkv).1, h⟩
  · with_unfolding_all decide
  · decide

/-- Witness for C6 at the gate set [1, 8]. -/
theorem channels_subset_catalog_C6_witness :
    "1-8" ∈ channelDefinitions.map Prod.fst ∧
    channelDefinitions.length = 36 :=
  ⟨(channels_subset_catalog_C6 [1, 8]).1 "1-8" (by with_unfolding_all decide),
   (channels_subset_catalog_C6 [1, 8]).2.2⟩

/-- C10: single-chart Definition is a function of the defined-center
count alone — the channel list never changes the result — with the
claimed count thresholds. -/
theorem definition_count_C10 (cs ch ch2 : List String) :
    calculateDefinition cs ch = calculateDefinition cs ch2 ∧
    (cs.length = 0 → calculateDefinition cs ch = "No Definition") ∧
    (1 ≤ cs.length → cs.length ≤ 3 →
      calculateDefinition cs ch = "Single Definition") ∧
    (4 ≤ cs.length → cs.length ≤ 5 →
      calculateDefinition cs ch = "Split Definition") ∧
    (6 ≤ cs.length → cs.length ≤ 7 →
      calculateDefinition cs ch = "Triple Split Definition") ∧
    (8 ≤ cs.length → cs.length ≤ 9 →
      calculateDefinition cs ch = "Quadruple Split Definition") := by
  have hcases : ∀ chx : List String, calculateDefinition cs chx =
      if cs.length = 0 then "No Definition"
      else if cs.length ≤ 3 then "Single Definition"
      else if cs.length ≤ 5 then "Split Definition"
      else if cs.length ≤ 7 then "Triple Split Definition"
      else "Quadruple Split Definition" := by
    intro chx
    unfold calculateDefinition
    simp only [Bool.and_eq_true, decide_eq_true_eq]
    split_ifs <;> first | rfl | omega
  refine ⟨by rw [hcases, hcases], ?_, ?_, ?_, ?_, ?_⟩ <;>
    · intro h1
      try intro h2
      rw [hcases]
      split_ifs <;> first | rfl | omega

/-- Witness for C10 at concrete center lists of each size class. -/
theorem definition_count_C10_witness :
    calculateDefinition [] ["1-8"] = "No Definition" ∧
    calculateDefinition ["a", "b"] [] = "Single Definition" ∧
    calculateDefinition ["a", "b", "c", "d"] [] = "Split Definition" ∧
    calculateDefinition ["a", "b", "c", "d", "e", "f"] [] =
      "Triple Split Definition" ∧
    calculateDefinition ["a", "b", "c", "d", "e", "f", "g", "h"] [] =
      "Quadruple Split Definition" :=
  ⟨(definition_count_C10 [] ["1-8"] []).2.1 (by decide),
   (definition_count_C10 ["a", "b"] [] []).2.2.1 (by decide) (by decide),
   (definition_count_C10 ["a", "b", "c", "d"] [] []).2.2.2.1
     (by decide) (by decide),
   (definition_count_C10 ["a", "b", "c", "d", "e", "f"] [] []).2.2.2.2.1
     (by decide) (by decide),
   (definition_count_C10 ["a", "b", "c", "d", "e", "f", "g", "h"] []
     []).2.2.2.2.2 (by decide) (by decide)⟩

theorem mem_jsDedup (x : String) : ∀ l : List String, x ∈ jsDedup l ↔ x ∈ l := by
  intro l
  induction l using jsDedup.induct with
  | case1 => simp [jsDedup]
  | case2 a l ih =>
    rw [jsDedup]
    by_cases hx : x = a
    · simp [hx]
    · simp only [List.mem_cons, ih, List.mem_filter]
      simp [hx]

/-- C7: for every pair of charts, the composite defined-center list is
(as a set) the union of the two charts' defined centers, and the open
centers are exactly the members of the fixed 9-center list outside that
union. -/
theorem composite_centers_C7 (chart1 chart2 : Chart) (x : String) :
    (x ∈ (calculateComposite chart1 chart2).definedCenters ↔
      x ∈ chart1.definedCenters ∨ x ∈ chart2.definedCenters) ∧
    (x ∈ (calculateComposite chart1 chart2).openCenters ↔
      x ∈ centersValues ∧
        ¬(x ∈ chart1.definedCenters ∨ x ∈ chart2.definedCenters)) := by
  unfold calculateComposite calculateOpenCenters
  constructor
  · simp [mem_jsDedup]
  · simp [List.mem_filter, mem_jsDedup]

/-- C8: the composite Companionship bucket holds exactly the channels
present in both charts; Dominance holds only channels of chart 1 absent
from chart 2, at most 3 of them; Compromise holds only channels of
chart 2 absent from chart 1, at most 3 of them. -/
theorem composite_buckets_C8 (chart1 chart2 : Chart) :
    (∀ c, c ∈ (calculateComposite chart1 chart2).companionship ↔
      c ∈ chart1.channels ∧ c ∈ chart2.channels) ∧
    (∀ c, c ∈ (calculateComposite chart1 chart2).dominance →
      c ∈ chart1.channels ∧ c ∉ chart2.channels) ∧
    (calculateComposite chart1 chart2).dominance.length ≤ 3 ∧
    (∀ c, c ∈ (calculateComposite chart1 chart2).compromise →
      c ∈ chart2.channels ∧ c ∉ chart1.channels) ∧
    (calculateComposite chart1 chart2).compromise.length ≤ 3 := by
  unfold calculateComposite categorizeRelationshipChannels
  refine ⟨?_, ?_, ?_, ?_, ?_⟩
  · intro c
    simp [List.mem_filter]
  · intro c hc
    have hmem := List.mem_of_mem_take hc
    simpa [List.mem_filter] using hmem
  · simp [List.length_take]
  · intro c hc
    have hmem := List.mem_of_mem_take hc
    simpa [List.mem_filter] using hmem
  · simp [List.length_take]

/-- Witness for C8 at two concrete charts. -/
theorem composite_buckets_C8_witness :
    ("1-8" ∈ (Chart.mk [] ["1-8", "2-14"]).channels ∧
      "1-8" ∉ (Chart.mk [] ["2-14"]).channels) ∧
    "2-14" ∈ (calculateComposite (Chart.mk [] ["1-8", "2-14"])
      (Chart.mk [] ["2-14"])).companionship :=
  ⟨(composite_buckets_C8 (Chart.mk [] ["1-8", "2-14"])
      (Chart.mk [] ["2-14"])).2.1 "1-8" (by decide),
   ((composite_buckets_C8 (Chart.mk [] ["1-8", "2-14"])
      (Chart.mk [] ["2-14"])).1 "2-14").mpr (by decide)⟩

/-- C9 counterexample: at longitude -100 (with -100 + 360 = 260 in
[0,360)) the Line output differs: `calculateLine` applies no negative
normalization, its adjusted longitude -42 stays negative, and the JS
remainder and floor then produce -2 instead of 4. -/
theorem negative_longitude_counterexample_C9 :
    (0:ℚ) ≤ -100 + 360 ∧ (-100:ℚ) + 360 < 360 ∧
    calculateLine (-100) = -2 ∧ calculateLine ((-100 : ℚ) + 360) = 4 ∧
    calculateLine (-100) ≠ calculateLine ((-100 : ℚ) + 360) := by
  refine ⟨by norm_num, by norm_num, ?_, ?_, ?_⟩
  · with_unfolding_all rfl
  · with_unfolding_all rfl
  · with_unfolding_all decide

/-- C9 amended: for every negative longitude L with L + 360 in [0,360),
the Gate output normalizes by +360 (eclipticToGate has an explicit
negative branch); the Line, Color, Tone and Base outputs are guaranteed
to agree with those of L + 360 whenever L ≥ -58, i.e. when the offset
longitude L + 58 is still nonnegative. Below -58 agreement is not
guaranteed and can fail (see the counterexample at L = -100), though it
is not excluded at isolated boundary longitudes. -/
theorem negative_longitude_normalize_C9 (L : ℚ) (h0 : -360 ≤ L) (h1 : L < 0) :
    eclipticToGate L = eclipticToGate (L + 360) ∧
    (-58 ≤ L →
      calculateLine L = calculateLine (L + 360) ∧
      calculateColor L = calculateColor (L + 360) ∧
      calculateTone L = calculateTone (L + 360) ∧
      calculateBase L = calculateBase (L + 360)) := by
  have h2 : (0:ℚ) ≤ L + 360 := by linarith
  constructor
  · unfold eclipticToGate
    rw [if_pos h1, if_neg (not_lt.mpr h2)]
  · intro h3
    have e1 : jsMod (L + HD_OFFSET_DEGREES) 360 = L + 58 := by
      unfold HD_OFFSET_DEGREES
      exact jsMod_eq_self (by linarith) (by linarith)
    have e2 : jsMod (L + 360 + HD_OFFSET_DEGREES) 360 = L + 58 := by
      unfold HD_OFFSET_DEGREES
      rw [jsMod_eq_sub (by norm_num) (by linarith) (by linarith)]
      ring
    refine ⟨?_, ?_, ?_, ?_⟩ <;>
      simp only [calculateLine, calculateColor, calculateTone, calculateBase,
        e1, e2]

/-- Witness for C9 at longitude -30. -/
theorem negative_longitude_normalize_C9_witness :
    eclipticToGate (-30) = eclipticToGate ((-30 : ℚ) + 360) ∧
    calculateLine (-30) = calculateLine ((-30 : ℚ) + 360) ∧
    calculateColor (-30) = calculateColor ((-30 : ℚ) + 360) ∧
    calculateTone (-30) = calculateTone ((-30 : ℚ) + 360) ∧
    calculateBase (-30) = calculateBase ((-30 : ℚ) + 360) := by
  have h := negative_longitude_normalize_C9 (-30) (by norm_num) (by norm_num)
  exact ⟨h.1, (h.2 (by norm_num)).1, (h.2 (by norm_num)).2.1,
    (h.2 (by norm_num)).2.2.1, (h.2 (by norm_num)).2.2.2⟩

theorem isHit_true_iff (target : ℚ) (provider : ℕ → Option ℚ) (j : ℕ) :
    isHit target provider j = true ↔
    ∃ lon, provider j = some lon ∧ circDiff target lon < 0.05 := by
  unfold isHit
  cases h : provider j <;> simp

theorem circDiff_lt_999 (t l : ℚ) : circDiff t l < 999 := by
  show (if |t - l| > 180 then 360 - |t - l| else |t - l|) < 999
  split_ifs with h
  · linarith [abs_nonneg (t - l)]
  · push_neg at h
    linarith

theorem fdLoop_firstHit (searchJD target : ℚ) (provider : ℕ → Option ℚ)
    (j : ℕ) (hj : isHit target provider j = true) :
    ∀ (n s0 : ℕ) (st : Option ℚ × ℚ), s0 ≤ j → j < s0 + n →
      (∀ k, s0 ≤ k → k < j → isHit target provider k = false) →
      fdLoop searchJD target provider (List.range' s0 n) st =
        Sum.inl (searchJD + j * 0.05) := by
  intro n
  induction n with
  | zero =>
    intro s0 st h1 h2 _
    omega
  | succ n ih =>
    intro s0 st h1 h2 hfirst
    obtain ⟨best, bd⟩ := st
    rcases Nat.eq_or_lt_of_le h1 with rfl | hlt
    · obtain ⟨lon, hlon, hd⟩ := (isHit_true_iff target provider s0).mp hj
      show fdLoop searchJD target provider (s0 :: List.range' (s0+1) n)
        (best, bd) = Sum.inl (searchJD + s0 * 0.05)
      simp only [fdLoop, hlon]
      rw [if_pos hd]
    · have ha : isHit target provider s0 = false := hfirst s0 le_rfl hlt
      show fdLoop searchJD target provider (s0 :: List.range' (s0+1) n)
        (best, bd) = Sum.inl (searchJD + j * 0.05)
      have hrest : ∀ k, s0 + 1 ≤ k → k < j → isHit target provider k = false :=
        fun k hk1 hk2 => hfirst k (by omega) hk2
      cases hpa : provider s0 with
      | none =>
        simp only [fdLoop, hpa]
        exact ih (s0 + 1) _ hlt (by omega) hrest
      | some lon =>
        have hd : ¬ (circDiff target lon < 0.05) := by
          intro hcon
          rw [isHit, hpa] at ha
          simp [hcon] at ha
        simp only [fdLoop, hpa]
        rw [if_neg hd]
        exact ih (s0 + 1) _ hlt (by omega) hrest

theorem fdLoop_noHit (searchJD target : ℚ) (provider : ℕ → Option ℚ) :
    ∀ (js : List ℕ) (best : Option ℚ) (bd : ℚ),
      (∀ k ∈ js, isHit target provider k = false) →
      ∃ p : Option ℚ × ℚ,
        fdLoop searchJD target provider js (best, bd) = Sum.inr p ∧
        (p = (best, bd) ∨ ∃ k ∈ js, ∃ lon, provider k = some lon ∧
          p = (some (searchJD + k * 0.05), circDiff target lon)) ∧
        p.2 ≤ bd ∧
        (∀ k ∈ js, ∀ lon, provider k = some lon → p.2 ≤ circDiff target lon) ∧
        (best.isSome → p.1.isSome) ∧
        (best = none → bd = 999 →
          (∃ k ∈ js, (provider k).isSome) → p.1.isSome) := by
  intro js
  induction js with
  | nil =>
    intro best bd _
    refine ⟨(best, bd), rfl, Or.inl rfl, le_rfl, ?_, fun h => h, ?_⟩
    · intro k hk
      exact absurd hk (List.not_mem_nil k)
    · intro _ _ hex
      obtain ⟨k, hk, _⟩ := hex
      exact absurd hk (List.not_mem_nil k)
  | cons i rest ih =>
    intro best bd hnh
    have hi : isHit target provider i = false := hnh i (List.mem_cons_self i rest)
    have hrest : ∀ k ∈ rest, isHit target provider k = false :=
      fun k hk => hnh k (List.mem_cons_of_mem i hk)
    cases hpi : provider i with
    | none =>
      obtain ⟨p, heq, hprov, hle, hmin, hmono, hsucc⟩ := ih best bd hrest
      refine ⟨p, ?_, ?_, hle, ?_, hmono, ?_⟩
      · simp only [fdLoop, hpi]
        exact heq
      · rcases hprov with h | ⟨k, hk, lon, hpl, hp⟩
        · exact Or.inl h
        · exact Or.inr ⟨k, List.mem_cons_of_mem i hk, lon, hpl, hp⟩
      · intro k hk lon hpl
        rcases List.mem_cons.mp hk with rfl | hk2
        · rw [hpi] at hpl
          exact absurd hpl (by simp)
        · exact hmin k hk2 lon hpl
      · intro hb hbd hex
        obtain ⟨k, hk, hsome⟩ := hex
        rcases List.mem_cons.mp hk with rfl | hk2
        · rw [hpi] at hsome
          exact absurd hsome (by simp)
        · exact hsucc hb hbd ⟨k, hk2, hsome⟩
    | some lon =>
      have hd : ¬ (circDiff target lon < 0.05) := by
        intro hcon
        rw [isHit, hpi] at hi
        simp [hcon] at hi
      by_cases himp : circDiff target lon < bd
      · obtain ⟨p, heq, hprov, hle, hmin, hmono, hsucc⟩ :=
          ih (some (searchJD + i * 0.05)) (circDiff target lon) hrest
        refine ⟨p, ?_, ?_, ?_, ?_, ?_, ?_⟩
        · simp only [fdLoop, hpi]
          rw [if_neg hd, if_pos himp]
          exact heq
        · rcases hprov with h | ⟨k, hk, lon2, hpl, hp⟩
          · exact Or.inr ⟨i, List.mem_cons_self i rest, lon, hpi, h⟩
          · exact Or.inr ⟨k, List.mem_cons_of_mem i hk, lon2, hpl, hp⟩
        · linarith
        · intro k hk lon2 hpl
          rcases List.mem_cons.mp hk with rfl | hk2
          · rw [hpi] at hpl
            have hl2 : lon2 = lon := by
              injection hpl.symm
            rw [hl2]
            exact hle
          · exact hmin k hk2 lon2 hpl
        · intro _
          exact hmono rfl
        · intro _ _ _
          exact hmono rfl
      · obtain ⟨p, heq, hprov, hle, hmin, hmono, hsucc⟩ := ih best bd hrest
        refine ⟨p, ?_, ?_, hle, ?_, hmono, ?_⟩
        · simp only [fdLoop, hpi]
          rw [if_neg hd, if_neg himp]
          exact heq
        · rcases hprov with h | ⟨k, hk, lon2, hpl, hp⟩
          · exact Or.inl h
          · exact Or.inr ⟨k, List.mem_cons_of_mem i hk, lon2, hpl, hp⟩
        · intro k hk lon2 hpl
          rcases List.mem_cons.mp hk with rfl | hk2
          · rw [hpi] at hpl
            have hl2 : lon2 = lon := by
              injection hpl.symm
            rw [hl2]
            exact le_trans hle (not_lt.mp himp)
          · exact hmin k hk2 lon2 hpl
        · intro _ hbd _
          subst hbd
          exact absurd (circDiff_lt_999 target lon) himp

/-- C4 counterexample: with birth Julian Day 95, the only successful
sample is index 0 at instant 95 − 95 + 0·0.05 = 0 (longitude 0,
distance 88° from target 272, so no 0.05° hit). The claim then requires
returning that globally-best sampled instant, 0; but `if (bestMatch)`
treats the numeric value 0 as falsy, so the code returns the fixed
fallback 95 − 88.5 = 6.5 even though a sample was evaluated
successfully. -/
theorem findDesignDate_truthiness_counterexample_C4 :
    ((fun i => if i = 0 then some (0:ℚ) else none) 0).isSome = true ∧
    (∀ j, j < 400 →
      isHit (designTarget 0) (fun i => if i = 0 then some (0:ℚ) else none) j
        = false) ∧
    findDesignDate 95 0 (fun i => if i = 0 then some (0:ℚ) else none)
      = 95 - 88.5 ∧
    (95 - 88.5 : ℚ) ≠ 95 - 95 + ((0:ℕ) : ℚ) * 0.05 := by
  refine ⟨rfl, ?_, ?_, ?_⟩
  · set_option maxRecDepth 8000 in with_unfolding_all decide
  · with_unfolding_all rfl
  · with_unfolding_all decide

/-- C4 amended: (1) if sample j is the first whose solar longitude is
within 0.05° of the target, the solver returns j's instant immediately;
(2) if no sample is within 0.05° but some sample succeeds, it returns a
successful sampled instant of globally minimal circular angular
distance — unless that instant is the number 0, which the JS truthiness
test `if (bestMatch)` treats as absent, in which case the fixed
88.5-day fallback is returned; (3) on total provider failure it returns
the fixed fallback. It never surfaces an error (it is a total
function). -/
theorem findDesignDate_spec_C4 (birthJD sunLong : ℚ)
    (provider : ℕ → Option ℚ) :
    (∀ j, j < 400 →
      (∀ k, k < j → isHit (designTarget sunLong) provider k = false) →
      isHit (designTarget sunLong) provider j = true →
      findDesignDate birthJD sunLong provider = birthJD - 95 + j * 0.05) ∧
    ((∀ j, j < 400 → isHit (designTarget sunLong) provider j = false) →
      (∃ j, j < 400 ∧ (provider j).isSome) →
      ∃ j lon, j < 400 ∧ provider j = some lon ∧
        (∀ k, k < 400 → ∀ lonK, provider k = some lonK →
          circDiff (designTarget sunLong) lon ≤
            circDiff (designTarget sunLong) lonK) ∧
        findDesignDate birthJD sunLong provider =
          (if birthJD - 95 + j * 0.05 = 0 then birthJD - 88.5
           else birthJD - 95 + j * 0.05)) ∧
    ((∀ j, j < 400 → provider j = none) →
      findDesignDate birthJD sunLong provider = birthJD - 88.5) := by
  refine ⟨?_, ?_, ?_⟩
  · intro j hj hfirst hhit
    have hloop := fdLoop_firstHit (birthJD - 95) (designTarget sunLong)
      provider j hhit 400 0 (none, 999) (Nat.zero_le j) (by omega)
      (fun k _ hk2 => hfirst k hk2)
    simp only [findDesignDate, List.range_eq_range' 400, hloop]
  · intro hnh hex
    have hnh' : ∀ k ∈ List.range' 0 400,
        isHit (designTarget sunLong) provider k = false := by
      intro k hk
      exact hnh k (by have := List.mem_range'_1.mp hk; omega)
    obtain ⟨p, heq, hprov, hle, hmin, hmono, hsucc⟩ :=
      fdLoop_noHit (birthJD - 95) (designTarget sunLong) provider
        (List.range' 0 400) none 999 hnh'
    obtain ⟨j0, hj0, hj0s⟩ := hex
    have hps : p.1.isSome := by
      refine hsucc rfl rfl ⟨j0, ?_, hj0s⟩
      exact List.mem_range'_1.mpr (by omega)
    rcases hprov with hp0 | ⟨k, hk, lon, hpl, hp⟩
    · rw [hp0] at hps
      exact absurd hps (by simp)
    · have hk400 : k < 400 := by
        have := List.mem_range'_1.mp hk
        omega
      refine ⟨k, lon, hk400, hpl, ?_, ?_⟩
      · intro k2 hk2 lon2 hpl2
        have h := hmin k2 (List.mem_range'_1.mpr (by omega)) lon2 hpl2
        rw [hp] at h
        exact h
      · simp only [findDesignDate, List.range_eq_range' 400, heq, hp]
  · intro hall
    have hnh' : ∀ k ∈ List.range' 0 400,
        isHit (designTarget sunLong) provider k = false := by
      intro k hk
      have hk400 : k < 400 := by
        have := List.mem_range'_1.mp hk
        omega
      rw [isHit, hall k hk400]
    obtain ⟨p, heq, hprov, _, _, _, _⟩ :=
      fdLoop_noHit (birthJD - 95) (designTarget sunLong) provider
        (List.range' 0 400) none 999 hnh'
    rcases hprov with hp0 | ⟨k, hk, lon, hpl, _⟩
    · simp only [findDesignDate, List.range_eq_range' 400, heq, hp0]
    · have hk400 : k < 400 := by
        have := List.mem_range'_1.mp hk
        omega
      rw [hall k hk400] at hpl
      exact absurd hpl (by simp)

/-- Witness for C4: part (1) at a provider that always answers the
target, part (2) at a provider with a single off-target success, and
part (3) at an always-failing provider. -/
theorem findDesignDate_spec_C4_witness :
    findDesignDate 100 0 (fun _ => some 272) = 100 - 95 + ((0:ℕ) : ℚ) * 0.05 ∧
    (∃ j : ℕ, ∃ lon : ℚ, j < 400 ∧
      (fun i => if i = 0 then some (1:ℚ) else none) j = some lon ∧
      (∀ k, k < 400 → ∀ lonK,
        (fun i => if i = 0 then some (1:ℚ) else none) k = some lonK →
        circDiff (designTarget 0) lon ≤ circDiff (designTarget 0) lonK) ∧
      findDesignDate 100 0 (fun i => if i = 0 then some (1:ℚ) else none) =
        (if (100:ℚ) - 95 + (j:ℚ) * 0.05 = 0 then 100 - 88.5
         else 100 - 95 + (j:ℚ) * 0.05)) ∧
    findDesignDate 0 0 (fun _ => none) = 0 - 88.5 :=
  ⟨(findDesignDate_spec_C4 100 0 (fun _ => some 272)).1 0 (by norm_num)
     (fun k hk => absurd hk (Nat.not_lt_zero k)) (by with_unfolding_all rfl),
   (findDesignDate_spec_C4 100 0
       (fun i => if i = 0 then some (1:ℚ) else none)).2.1
     (by set_option maxRecDepth 8000 in with_unfolding_all decide)
     ⟨0, by norm_num, rfl⟩,
   (findDesignDate_spec_C4 0 0 (fun _ => none)).2.2 (fun j _ => rfl)⟩

